import Mathlib

/-!
Verification of the healthcare_ai backend (at119/healthcare_ai).

Shallow embedding of `src/backend/app/{pipeline.py, main.py, schemas.py,
azure_clients.py, utils_audio.py}`.  Python strings are modelled as
`List Char`; Python string primitives (`strip`, `lower`, `split`,
`startswith`, `in`, `find`, `lstrip`, `endswith`, `join`) are given
executable Lean definitions with the same semantics on the inputs the
program manipulates.  External services (Azure OpenAI chat completion,
Azure speech recognition, the WAV decoder of the standard library, the
NLM terminology API) are modelled as oracle parameters: the embedded
control flow consumes their outcome exactly where the Python code does.
-/

namespace HealthcareAI

abbrev Str := List Char

/-- Python whitespace characters recognised by `str.strip()`. -/
def pyWs (c : Char) : Bool :=
  c == ' ' || c == '\t' || c == '\n' || c == '\r' ||
  c == Char.ofNat 11 || c == Char.ofNat 12

/-- Leading-whitespace removal, the left half of Python `str.strip()`. -/
def trimL (l : Str) : Str := l.dropWhile pyWs

/-- Trailing-whitespace removal, the right half of Python `str.strip()`. -/
def trimR (l : Str) : Str := (l.reverse.dropWhile pyWs).reverse

/-- Python `str.strip()`. -/
def pstrip (l : Str) : Str := trimR (trimL l)

/-- Python `str.lower()` (the program only lowercases ASCII text). -/
def plower (l : Str) : Str := l.map Char.toLower

/-- Python `str.lstrip(cs)`: drop from the left every character in `cs`. -/
def plstrip (cs : List Char) (l : Str) : Str := l.dropWhile (fun c => cs.contains c)

/-- Python `str.startswith(p)` for `p` the first argument. -/
def isPrefixCh : Str → Str → Bool
  | [], _ => true
  | _ :: _, [] => false
  | a :: as, b :: bs => a == b && isPrefixCh as bs

/-- Python `needle in hay` substring containment, `needle` first. -/
def isInfixCh (needle : Str) : Str → Bool
  | [] => isPrefixCh needle []
  | c :: cs => isPrefixCh needle (c :: cs) || isInfixCh needle cs

/-- Python `str.endswith("\n")`. -/
def endsWithNl (l : Str) : Bool := l.getLast? == some '\n'

/-- Python `str.split("\n")`. -/
def splitNl : Str → List Str
  | [] => [[]]
  | '\n' :: rest =>
    [] :: splitNl rest
  | c :: rest =>
    match splitNl rest with
    | [] => [[c]]
    | h :: t => (c :: h) :: t

/-- Python `str.split("\n\n")` (leftmost, non-overlapping). -/
def splitNN : Str → List Str
  | [] => [[]]
  | '\n' :: '\n' :: rest =>
    [] :: splitNN rest
  | c :: rest =>
    match splitNN rest with
    | [] => [[c]]
    | h :: t => (c :: h) :: t

/-- Python `sep.join(l)`. -/
def joinSep (sep : Str) : List Str → Str
  | [] => []
  | [l] => l
  | l :: ls => l ++ sep ++ joinSep sep ls

/-- `"\n".join(l)`: inverse of `splitNl` on newline-free lines. -/
def joinNl : List Str → Str := joinSep ['\n']

/-- Index of the first occurrence of `needle` at or after position `i`
(helper for Python `str.find`). -/
def findFromAux (needle : Str) : Str → Nat → Option Nat
  | [], i => if needle = [] then some i else none
  | c :: rest, i =>
    if isPrefixCh needle (c :: rest) then some i else findFromAux needle rest (i + 1)

/-- Python `hay.find(needle, start)` (`none` models the `-1` result). -/
def pyFindFrom (hay needle : Str) (start : Nat) : Option Nat :=
  (findFromAux needle (hay.drop start) 0).map (· + start)

/-! ## SOAP data model (schemas.py `SOAPNote`, pipeline.py `sections` dict)

`_parse_soap_response` builds a dict whose keys are fixed at creation to
exactly `subjective`, `objective`, `assessment`, `plan` and are never
added to or removed; we embed that dict as a four-field structure, which
also captures the "exactly four keys" part of the contract. -/

inductive SecName where
  | subjective | objective | assessment | plan
deriving DecidableEq, Repr

structure Sections where
  subjective : Str
  objective : Str
  assessment : Str
  plan : Str
deriving DecidableEq, Repr

def Sections.get (s : Sections) : SecName → Str
  | .subjective => s.subjective
  | .objective => s.objective
  | .assessment => s.assessment
  | .plan => s.plan

def Sections.set (s : Sections) : SecName → Str → Sections
  | .subjective, v => { s with subjective := v }
  | .objective, v => { s with objective := v }
  | .assessment, v => { s with assessment := v }
  | .plan, v => { s with plan := v }

/-- Python truthiness of `any(sections.values())`. -/
def Sections.anyVal (s : Sections) : Bool :=
  !(s.subjective == []) || !(s.objective == []) || !(s.assessment == []) || !(s.plan == [])

/-- pipeline.py lines 836-841: `section_markers`, flattened in the
iteration order of the nested `for section / for marker` loops. -/
def markerTable : List (SecName × Str) :=
  [ (.subjective, "===subjective===".data), (.subjective, "subjective:".data),
    (.subjective, "**subjective**".data), (.subjective, "subjective (s):".data),
    (.subjective, "s:".data),
    (.objective, "===objective===".data), (.objective, "objective:".data),
    (.objective, "**objective**".data), (.objective, "objective (o):".data),
    (.objective, "o:".data),
    (.assessment, "===assessment===".data), (.assessment, "assessment:".data),
    (.assessment, "**assessment**".data), (.assessment, "assessment (a):".data),
    (.assessment, "a:".data), (.assessment, "impression:".data),
    (.assessment, "diagnosis:".data),
    (.plan, "===plan===".data), (.plan, "plan:".data),
    (.plan, "**plan**".data), (.plan, "plan (p):".data),
    (.plan, "p:".data), (.plan, "treatment plan:".data) ]

/-- pipeline.py lines 843-848: `section_keywords`. -/
def keywordTable : SecName → List Str
  | .subjective => ["subjective".data, "chief complaint".data,
      "history of present illness".data, "hpi".data]
  | .objective => ["objective".data, "physical examination".data,
      "vital signs".data, "exam".data, "objective findings".data]
  | .assessment => ["assessment".data, "impression".data, "diagnosis".data,
      "clinical assessment".data, "differential diagnosis".data,
      "primary diagnosis".data]
  | .plan => ["plan".data, "treatment".data, "follow-up".data,
      "management".data, "treatment plan".data]

def sectionOrder : List SecName := [.subjective, .objective, .assessment, .plan]

/-! ## Strategy 1: the line scan (pipeline.py lines 850-893) -/

structure ScanSt where
  secs : Sections
  cur : Option SecName
  collecting : Bool
deriving Repr

def initSt : ScanSt := ⟨⟨[], [], [], []⟩, none, false⟩

/-- pipeline.py lines 879-888: does a marker of a *different* section
start this line?  (Checked only when no marker at all matched, so it is
in fact always false; embedded for fidelity.) -/
def otherMarkerHit (cur : SecName) (ll : Str) : Bool :=
  markerTable.any (fun p => p.1 != cur && isPrefixCh p.2 ll)

/-- pipeline.py lines 890-893: append a non-marker line to the current
section's accumulator. -/
def appendLine (st : ScanSt) (s : SecName) (ls : Str) : ScanSt :=
  let v := st.secs.get s
  let v := if v ≠ [] ∧ ¬ endsWithNl v then v ++ ['\n'] else v
  { st with secs := st.secs.set s (v ++ ls) }

/-- One iteration of the `for line in lines` loop of
`_parse_soap_response` (pipeline.py lines 854-893). -/
def scanLine (st : ScanSt) (line : Str) : ScanSt :=
  let ls := pstrip line
  if ls = [] then
    match st.cur with
    | some s => if st.collecting then
        { st with secs := st.secs.set s (st.secs.get s ++ ['\n']) } else st
    | none => st
  else
    let ll := plower ls
    match markerTable.find? (fun p => isPrefixCh p.2 ll) with
    | some (sec, m) =>
      let remaining := pstrip (plstrip ['-'] (pstrip (plstrip [':'] (pstrip (ls.drop m.length)))))
      { secs := st.secs.set sec remaining, cur := some sec, collecting := true }
    | none =>
      match st.cur with
      | some s =>
        if st.collecting then
          if otherMarkerHit s ll then st else appendLine st s ls
        else st
      | none => st

/-- Strategy 1: run the line scan over `soap_text.split("\n")`. -/
def rawScan (text : Str) : Sections :=
  ((splitNl text).foldl scanLine initSt).secs

/-! ## Strategy 2: keyword substring scan (pipeline.py lines 895-912) -/

/-- pipeline.py lines 903-908: position of the nearest following keyword
occurrence belonging to another section (defaults to `len(soap_text)`). -/
def nextKwIdx (tl : Str) (sec : SecName) (start : Nat) (textLen : Nat) : Nat :=
  (sectionOrder.filter (· ≠ sec)).foldl
    (fun acc other =>
      (keywordTable other).foldl
        (fun acc2 okw =>
          match pyFindFrom tl okw start with
          | some j => if j < acc2 then j else acc2
          | none => acc2) acc)
    textLen

/-- Strategy 2 content for one section (pipeline.py lines 896-912). -/
def kwSection (text tl : Str) (sec : SecName) : Str :=
  match (keywordTable sec).find? (fun kw => isInfixCh kw tl) with
  | none => []
  | some kw =>
    match pyFindFrom tl kw 0 with
    | none => []
    | some idx =>
      let start := idx + kw.length
      let stop := nextKwIdx tl sec start text.length
      pstrip (plstrip [':'] (pstrip ((text.drop start).take (stop - start))))

/-! ## Strategies 3 and 4 (pipeline.py lines 914-930) -/

/-- `[p.strip() for p in soap_text.split("\n\n") if p.strip()]`. -/
def paragraphsOf (text : Str) : List Str :=
  ((splitNN text).map pstrip).filter (· ≠ [])

/-- Paragraph split with positional assignment, falling back to the
whole text as "subjective" (pipeline.py lines 914-930; the sections dict
is all-empty whenever this runs). -/
def paragraphAssign (text : Str) : Sections :=
  match paragraphsOf text with
  | p0 :: p1 :: p2 :: p3 :: _ => ⟨p0, p1, p2, p3⟩
  | [p0, p1, p2] => ⟨p0, p1, p2, []⟩
  | [p0, p1] => ⟨p0, p1, [], []⟩
  | [p0] => ⟨p0, [], [], []⟩
  | [] => ⟨text, [], [], []⟩

/-! ## Post-processing (pipeline.py lines 932-941) -/

/-- `f"{section.capitalize()} information to be documented."`. -/
def placeholder : SecName → Str
  | .subjective => "Subjective information to be documented.".data
  | .objective => "Objective information to be documented.".data
  | .assessment => "Assessment information to be documented.".data
  | .plan => "Plan information to be documented.".data

def fallbackSubjective : Str := "Patient symptoms and complaints to be documented.".data

/-- One iteration of the `for section in sections` post-processing loop
(pipeline.py lines 932-938). -/
def postSec (sec : SecName) (v tr : Str) : Str :=
  let v := pstrip v
  if v = [] then
    if sec = .subjective ∧ tr ≠ [] then tr else placeholder sec
  else v

/-- pipeline.py lines 932-941: trim, placeholder-fill, and the final
subjective override. -/
def postProcess (s : Sections) (tr : Str) : Sections :=
  let s1 : Sections :=
    ⟨postSec .subjective s.subjective tr, postSec .objective s.objective tr,
     postSec .assessment s.assessment tr, postSec .plan s.plan tr⟩
  if s1.subjective = [] ∨ s1.subjective = placeholder .subjective then
    { s1 with subjective := if tr ≠ [] then tr else fallbackSubjective }
  else s1

/-- pipeline.py lines 826-943: `SOAPPipeline._parse_soap_response`.
The Python routine is pure string processing with no raising operation,
so the embedding is a total function: it "never throws" and always
yields the four fixed keys. -/
def _parse_soap_response (soap_text : Str) (transcription : Str) : Sections :=
  let tl := plower soap_text
  let s1 := rawScan soap_text
  let s2 := if s1.anyVal then s1 else
    ⟨kwSection soap_text tl .subjective, kwSection soap_text tl .objective,
     kwSection soap_text tl .assessment, kwSection soap_text tl .plan⟩
  let s3 := if s2.anyVal then s2 else paragraphAssign soap_text
  postProcess s3 transcription

/-! ## Pydantic schemas (schemas.py)

Constructing a pydantic `BaseModel` raises a `ValidationError` exactly
when some declared field without a default value is missing from the
keyword arguments; `validateKwargs` embeds that check. -/

structure FieldSpec where
  name : Str
  required : Bool

def validateKwargs (spec : List FieldSpec) (provided : List Str) : Bool :=
  spec.all (fun f => !f.required || provided.any (· == f.name))

/-- schemas.py lines 51-56: `ClinicalNoteResponse` — all four fields are
declared without defaults, hence required. -/
def clinicalNoteResponseSpec : List FieldSpec :=
  [⟨"transcription".data, true⟩, ⟨"soap_note".data, true⟩,
   ⟨"health_entities".data, true⟩, ⟨"confidence_score".data, true⟩]

/-- main.py lines 267-270 and 407-410: both clinical endpoints build
`ClinicalNoteResponse(transcription=..., soap_note=...)`. -/
def clinicalNoteResponseKwargs : List Str :=
  ["transcription".data, "soap_note".data]

/-- schemas.py lines 43-48: `SOAPNote`, four required fields. -/
def soapNoteSpec : List FieldSpec :=
  [⟨"subjective".data, true⟩, ⟨"objective".data, true⟩,
   ⟨"assessment".data, true⟩, ⟨"plan".data, true⟩]

/-- schemas.py lines 26-34: `DiarySummaryResponse`, seven required fields. -/
def diarySummarySpec : List FieldSpec :=
  [⟨"total_entries".data, true⟩, ⟨"date_range".data, true⟩,
   ⟨"sentiment_trend".data, true⟩, ⟨"common_symptoms".data, true⟩,
   ⟨"mood_patterns".data, true⟩, ⟨"suggestions".data, true⟩,
   ⟨"visualization_data".data, true⟩]

/-- schemas.py lines 15-23: `DiaryEntryResponse`; `sentiment`, `summary`
and `suggestions` carry defaults. -/
def diaryEntryResponseSpec : List FieldSpec :=
  [⟨"id".data, true⟩, ⟨"text".data, true⟩, ⟨"entry_type".data, true⟩,
   ⟨"timestamp".data, true⟩, ⟨"sentiment".data, false⟩,
   ⟨"summary".data, false⟩, ⟨"suggestions".data, false⟩]

/-! ## Diary pipeline (pipeline.py `DiaryPipeline`) -/

/-- A stored diary entry (main.py lines 174-179); `datetime` values are
modelled as abstract `Nat` instants rendered by `isoformat`. -/
structure DEntry where
  id : Str
  text : Str
  entry_type : Str
  timestamp : Nat
deriving DecidableEq, Repr

/-- Abstract rendering of `datetime.isoformat()`; injective on instants. -/
def isoformat (t : Nat) : Str := (toString t).data

/-- Python dict-like JSON value, for the heterogeneous dicts the
handlers return. -/
inductive PyVal where
  | int (n : Nat)
  | str (s : Str)
  | list (l : List PyVal)
  | dict (d : List (Str × PyVal))

/-- `d[k] = d.get(k, 0) + 1` on an insertion-ordered Python dict. -/
def bump (m : List (Str × Nat)) (k : Str) : List (Str × Nat) :=
  if m.any (fun p => p.1 == k) then
    m.map (fun p => if p.1 == k then (p.1, p.2 + 1) else p)
  else m ++ [(k, 1)]

/-- pipeline.py line 32: the fixed disease vocabulary. -/
def commonDiseases : List Str :=
  ["diabetes", "hypertension", "asthma", "arthritis", "heart disease",
   "cancer", "thyroid", "copd", "depression", "anxiety"].map String.data

/-- pipeline.py lines 29-35: count disease keywords over `disease` entries. -/
def diseaseCounts (entries : List DEntry) : List (Str × Nat) :=
  entries.foldl
    (fun m e =>
      if e.entry_type == "disease".data then
        commonDiseases.foldl
          (fun m2 d => if isInfixCh d (plower e.text) then bump m2 d else m2) m
      else m) []

/-- pipeline.py lines 37-44: mood bucketing. -/
def moodCounts (entries : List DEntry) : List (Str × Nat) :=
  entries.foldl
    (fun m e =>
      if e.entry_type == "mood".data then
        let mt := plower e.text
        if isInfixCh "happy".data mt || isInfixCh "good".data mt then bump m "positive".data
        else if isInfixCh "sad".data mt || isInfixCh "bad".data mt then bump m "negative".data
        else bump m "neutral".data
      else m) []

/-- Stable insertion for descending-by-count order (ties keep original
order, matching Python `sorted(key=..., reverse=True)`). -/
def insertByCount (x : Str × Nat) : List (Str × Nat) → List (Str × Nat)
  | [] => [x]
  | y :: ys => if x.2 < y.2 then y :: insertByCount x ys else x :: y :: ys

def sortByCountDesc : List (Str × Nat) → List (Str × Nat)
  | [] => []
  | x :: xs => insertByCount x (sortByCountDesc xs)

def listMin : List Nat → Nat
  | [] => 0
  | x :: xs => xs.foldl Nat.min x

def listMax : List Nat → Nat
  | [] => 0
  | x :: xs => xs.foldl Nat.max x

/-- pipeline.py lines 13-72: `DiaryPipeline.generate_summary`.  The
result of the `_generate_suggestions` call (line 46, an external-service
interaction) is passed in as `suggestions`. -/
def generate_summary (suggestions : List Str) (entries : List DEntry) :
    List (Str × PyVal) :=
  if entries = [] then
    [("total_entries".data, .int 0), ("date_range".data, .dict []),
     ("sentiment_trend".data, .list []), ("common_symptoms".data, .list []),
     ("mood_patterns".data, .list []), ("suggestions".data, .list []),
     ("visualization_data".data, .dict [])]
  else
    let dates := entries.map (·.timestamp)
    let diseases := diseaseCounts entries
    let moods := moodCounts entries
    let time_series := entries.map (fun e =>
      PyVal.dict [("date".data, .str (isoformat e.timestamp)),
                  ("type".data, .str e.entry_type)])
    [("total_entries".data, .int entries.length),
     ("date_range".data, .dict
        [("start".data, .str (isoformat (listMin dates))),
         ("end".data, .str (isoformat (listMax dates)))]),
     ("sentiment_trend".data, .list []),
     ("common_diseases".data, .list
        (((sortByCountDesc diseases).take 5).map (fun p =>
          PyVal.dict [("disease".data, .str p.1), ("count".data, .int p.2)]))),
     ("mood_patterns".data, .list
        (moods.map (fun p =>
          PyVal.dict [("mood".data, .str p.1), ("count".data, .int p.2)]))),
     ("suggestions".data, .list (suggestions.map PyVal.str)),
     ("visualization_data".data, .dict
        [("time_series".data, .list time_series)])]

/-- Outcome of an external chat-completion call: `some text` is the
first choice's content, `none` models the call raising an exception. -/
abbrev LLMResult := Option Str

/-- pipeline.py lines 102-103: the fixed fallback suggestion list. -/
def suggestionFallback : List Str :=
  ["Consider maintaining regular sleep patterns".data,
   "Stay hydrated throughout the day".data]

/-- pipeline.py lines 74-103: `DiaryPipeline._generate_suggestions`.
`client` is the truthiness of `azure_clients.openai_client`; the prompt
construction only shapes the external request and is not modelled. -/
def _generate_suggestions (client : Bool) (entries : List DEntry)
    (llm : LLMResult) : List Str :=
  if ¬ client ∨ entries = [] then []
  else
    match llm with
    | none => suggestionFallback
    | some txt =>
      let st := pstrip txt
      (((splitNl st).filter (fun s => pstrip s ≠ [])).map
        (fun s => plstrip ['*', ' '] (plstrip ['-', ' '] (pstrip s)))).take 3

/-! ## SOAP pipeline (pipeline.py `SOAPPipeline`) -/

/-- A health entity as consumed by `_generate_fallback_soap`
(text and category are the only fields it reads). -/
structure HealthEnt where
  text : Str
  category : Str
deriving DecidableEq, Repr

/-- The `health_entities` dict passed to the pipeline. -/
structure HealthEnts where
  entities : List HealthEnt
deriving DecidableEq, Repr

/-- pipeline.py line 655: the entity categories counted as symptoms. -/
def fallbackSymptCats : List Str :=
  ["Symptom", "Condition", "Diagnosis", "BodyStructure"].map String.data

/-- pipeline.py lines 649-767: `SOAPPipeline._generate_fallback_soap`,
the deterministic rule-based fallback used when the OpenAI client is
missing or the external call raised. -/
def _generate_fallback_soap (transcription : Str) (he : Option HealthEnts) :
    Sections :=
  let tl := plower transcription
  let inf := fun (s : String) => isInfixCh s.data tl
  let symptoms_found : List Str :=
    match he with
    | some h => (h.entities.filter (fun e => fallbackSymptCats.contains e.category)).map (·.text)
    | none => []
  let has_fever := inf "fever" || inf "temperature" || inf "hot"
  let has_pain := inf "pain" || inf "hurts" || inf "ache" || inf "sore"
  let has_swelling := inf "swelling" || inf "swollen"
  let has_cough := inf "cough"
  let has_headache := inf "headache" || (inf "head" && inf "ache")
  let has_nausea := inf "nausea" || inf "nauseous"
  let has_diarrhea := inf "diarrhea" || inf "diarrhoea"
  let has_rash := inf "rash"
  let neck_involved := inf "neck"
  let chest_involved := inf "chest" || inf "breast"
  let abdominal_involved := inf "stomach" || inf "abdomen" || inf "belly"
  let facial_involved := inf "cheek" || inf "face" || inf "jaw"
  let subjective := "Chief Complaint: ".data ++ transcription ++
    "\nHistory of Present Illness: Patient reports ".data ++ plower transcription
  let op : List Str := []
  let op := if has_fever then op ++ ["Temperature measurement indicated".data] else op
  let op := if has_pain then op ++ ["Pain assessment and location-specific examination".data] else op
  let op := if has_swelling then op ++ ["Examination of affected area for swelling, erythema, warmth".data] else op
  let op := if neck_involved then op ++ ["Neck examination and lymph node palpation".data] else op
  let op := if facial_involved then op ++ ["Facial and parotid gland examination".data] else op
  let op := if chest_involved then op ++ ["Chest auscultation and respiratory assessment".data] else op
  let op := if abdominal_involved then op ++ ["Abdominal examination and palpation".data] else op
  let op := if has_cough then op ++ ["Respiratory examination and lung auscultation".data] else op
  let op := if has_rash then op ++ ["Skin examination and rash characterization".data] else op
  let objective :=
    if op ≠ [] then
      "Vital signs assessment. ".data ++ joinSep ". ".data op ++
        ". General physical examination.".data
    else "Complete physical examination and vital signs assessment.".data
  let assessment_parts : List Str :=
    if has_swelling && facial_involved && has_fever then
      ["Primary Diagnosis: Mumps, parotitis, or sialadenitis".data,
       "Differential Diagnoses: 1) Lymphadenitis 2) Viral parotitis 3) Bacterial sialadenitis".data,
       "Clinical Reasoning: Bilateral or unilateral facial swelling with fever and neck involvement suggests infectious process affecting salivary glands or lymph nodes".data]
    else if has_fever && neck_involved && has_pain then
      ["Primary Diagnosis: Cervical lymphadenitis or upper respiratory infection".data,
       "Differential Diagnoses: 1) Viral infection (EBV, CMV) 2) Bacterial lymphadenitis 3) Inflammatory condition".data,
       "Clinical Reasoning: Fever with neck pain and possible lymph node involvement indicates infectious or inflammatory process".data]
    else if has_headache && has_nausea then
      ["Primary Diagnosis: Migraine or tension headache".data,
       "Differential Diagnoses: 1) Tension headache 2) Viral syndrome 3) Intracranial pathology (less likely)".data,
       "Clinical Reasoning: Headache with nausea is classic migraine presentation, though other causes should be considered".data]
    else if has_cough && has_fever then
      ["Primary Diagnosis: Upper respiratory infection or pneumonia".data,
       "Differential Diagnoses: 1) Viral URI 2) Bacterial pneumonia 3) Bronchitis".data,
       "Clinical Reasoning: Cough with fever suggests respiratory tract infection".data]
    else if has_diarrhea && has_fever then
      ["Primary Diagnosis: Gastroenteritis".data,
       "Differential Diagnoses: 1) Viral gastroenteritis 2) Bacterial infection 3) Food poisoning".data,
       "Clinical Reasoning: Diarrhea with fever indicates gastrointestinal infection".data]
    else if has_rash && has_fever then
      ["Primary Diagnosis: Viral exanthem or drug reaction".data,
       "Differential Diagnoses: 1) Viral rash (measles, rubella, etc.) 2) Drug reaction 3) Allergic reaction".data,
       "Clinical Reasoning: Fever with rash suggests viral illness or hypersensitivity reaction".data]
    else
      let sl : List Str := []
      let sl := if has_fever then sl ++ ["fever".data] else sl
      let sl := if has_pain then sl ++ ["pain".data] else sl
      let sl := if has_swelling then sl ++ ["swelling".data] else sl
      let sl := if has_cough then sl ++ ["cough".data] else sl
      let sl := if has_headache then sl ++ ["headache".data] else sl
      let sl := if has_nausea then sl ++ ["nausea".data] else sl
      let sl := if symptoms_found ≠ [] then
          sl ++ ((symptoms_found.take 3).filter (fun s => ¬ sl.contains s))
        else sl
      ["Primary Diagnosis: Clinical assessment based on symptom pattern (".data ++
         joinSep ", ".data (sl.take 4) ++ ")".data,
       "Differential Diagnoses: Further evaluation needed to narrow differential".data,
       "Clinical Reasoning: Symptom constellation requires comprehensive evaluation".data]
  let assessment := joinSep ". ".data assessment_parts
  let pitems : List Str := []
  let pitems := if has_fever then pitems ++
      ["Antipyretic: Acetaminophen 500-1000mg q6h or Ibuprofen 400-600mg q6h for fever".data]
    else pitems
  let pitems := if has_pain then pitems ++
      ["Analgesia as needed for pain management".data] else pitems
  let pitems :=
    if has_swelling && facial_involved then pitems ++
      ["Warm compresses to affected area".data,
       "Consider viral serology (mumps, EBV) and CBC with differential".data]
    else if has_fever && neck_involved then pitems ++
      ["CBC, inflammatory markers (ESR, CRP), and consider imaging if abscess suspected".data]
    else if has_headache then pitems ++
      ["Headache management with appropriate analgesics".data,
       "Consider neuroimaging if red flag symptoms present".data]
    else if has_cough then pitems ++
      ["Chest X-ray if pneumonia suspected, symptomatic treatment".data]
    else if has_diarrhea then pitems ++
      ["Stool studies if indicated, hydration, anti-diarrheal if appropriate".data]
    else pitems ++
      ["Symptomatic treatment based on specific symptoms".data,
       "Diagnostic workup as clinically indicated".data]
  let pitems := pitems ++
    ["Follow-up in 3-5 days or sooner if symptoms worsen".data,
     "Patient education on symptom management and when to seek immediate care".data]
  let plan := "1. ".data ++ joinSep " 2. ".data pitems
  ⟨subjective, objective, assessment, plan⟩

/-- pipeline.py line 545: the placeholder check that triggers a retry. -/
def needRetry (note : Sections) : Bool :=
  note.assessment == [] || isInfixCh "pending".data (plower note.assessment) ||
    isInfixCh "to be".data (plower note.assessment)

/-- pipeline.py lines 769-824: `SOAPPipeline._retry_soap_generation`:
one more external call, parsed; any exception falls back. -/
def _retry_soap_generation (llm : LLMResult) (transcription : Str)
    (he : Option HealthEnts) : Sections :=
  match llm with
  | none => _generate_fallback_soap transcription he
  | some t => _parse_soap_response (pstrip t) transcription

/-- pipeline.py lines 372-554: `SOAPPipeline.generate_soap_note`.
`client` is the truthiness of the OpenAI client; `llm` / `retryLlm` are
the outcomes of the main and retry chat-completion calls.  The
differential-diagnosis pass and the diary/entity context building only
shape the prompt of the external call (and catch their own exceptions
internally), so they do not affect which branch returns. -/
def generate_soap_note (client : Bool) (llm retryLlm : LLMResult)
    (transcription : Str) (he : Option HealthEnts) : Sections :=
  if ¬ client then _generate_fallback_soap transcription he
  else
    match llm with
    | none => _generate_fallback_soap transcription he
    | some txt =>
      let note := _parse_soap_response (pstrip txt) transcription
      if needRetry note then _retry_soap_generation retryLlm transcription he
      else note

/-- pipeline.py lines 556-647: `SOAPPipeline.update_soap_incremental`. -/
def update_soap_incremental (client : Bool) (llm : LLMResult)
    (current_soap : Sections) (full_transcript : Str) : Sections :=
  if ¬ client then current_soap
  else
    match llm with
    | none => current_soap
    | some t => _parse_soap_response (pstrip t) full_transcript

/-! ## Speech client (azure_clients.py `transcribe_audio`) -/

/-- Outcome of the one external speech-recognition call
(`recognizer.recognize_once_async().get()`, azure_clients.py line 207). -/
inductive RecResult where
  | recognized (text : Str)
  | noMatch (reason : Str)
  | canceled (reason : Str) (isError : Bool) (details : Str)
  | otherFailure
deriving DecidableEq, Repr

/-- Result of `transcribe_audio` together with whether the external
speech-recognition call was issued. -/
structure TranscribeTrace where
  result : Except Str Str
  externalCalled : Bool
deriving Repr

def notConfiguredMsg : Str := "Azure Speech service not configured".data

/-- azure_clients.py line 132. -/
def tooShortMsg : Str :=
  "Audio file is too short. Please record at least 1-2 seconds of audio.".data

def emptyRecognitionMsg : Str :=
  "Speech was recognized but no text was returned. Please try speaking more clearly.".data

def noSpeechMsg (reason : Str) : Str :=
  "No speech could be recognized. Please try:\n- Speaking clearly and loudly\n- Recording for at least 2-3 seconds\n- Ensuring your microphone is working\n- Reducing background noise\nReason: ".data ++ reason

/-- azure_clients.py lines 127-234: `AzureClients.transcribe_audio`.
Audio bytes are modelled as `List Nat`.  Between the length check and
the recognition call the code only performs local work (WAV header
probing, stream setup, chunked writes into the push stream — all
exception-swallowing and without effect on the returned text), so it is
not reproduced here; the one external interaction is the recognition
call, whose outcome is `rec`. -/
def transcribe_audio (speechConfigured : Bool) (audio : List Nat)
    (rec : RecResult) : TranscribeTrace :=
  if ¬ speechConfigured then ⟨.error notConfiguredMsg, false⟩
  else if audio.length < 1000 then ⟨.error tooShortMsg, false⟩
  else
    ⟨match rec with
     | .recognized t => if pstrip t = [] then .error emptyRecognitionMsg else .ok (pstrip t)
     | .noMatch reason => .error (noSpeechMsg reason)
     | .canceled reason isErr details =>
       .error ("Speech recognition canceled: ".data ++ reason ++
         (if isErr then "\nError details: ".data ++ details else []))
     | .otherFailure => .error "Speech recognition failed".data,
     true⟩

/-! ## Audio validation (utils_audio.py) -/

/-- Result of the standard-library `wave.open` header parse: `none`
models any exception (not a WAV file). -/
structure WavFmt where
  frames : Nat
  sample_rate : Nat
  channels : Nat
deriving DecidableEq, Repr

/-- utils_audio.py lines 17-36: `validate_audio_format` (message text
abbreviated; the claims only depend on the boolean and on which branch
produced it). -/
def validate_audio_format (wav : Option WavFmt) : Bool × Str :=
  match wav with
  | some f =>
    if f.sample_rate < 8000 ∨ 48000 < f.sample_rate then
      (false, "Unsupported sample rate: ".data ++ (toString f.sample_rate).data)
    else if ¬ (f.channels = 1 ∨ f.channels = 2) then
      (false, "Unsupported channels: ".data ++ (toString f.channels).data)
    else (true, "Valid WAV".data)
  | none => (true, "Audio format accepted (Azure Speech will handle conversion)".data)

/-! ## HTTP handlers (main.py) -/

/-- A FastAPI handler outcome: a successful JSON body, or an
`HTTPException(status_code, detail)`. -/
inductive HResp where
  | ok (body : PyVal)
  | httpError (code : Nat) (detail : Str)

def soapPy (s : Sections) : PyVal :=
  .dict [("subjective".data, .str s.subjective), ("objective".data, .str s.objective),
         ("assessment".data, .str s.assessment), ("plan".data, .str s.plan)]

/-- main.py lines 144-196: `create_diary_entry`.  `decodeRes` is the
outcome of `decode_audio_base64` (`none` = raised), `wav` the WAV header
parse inside `validate_audio_format`, `rec` the speech-recognition
outcome, `suggLlm` the suggestion chat-completion outcome, `uid` the
generated uuid and `ts` the resolved timestamp.  Note that the inner
`try` at lines 153-162 catches `Exception`, which includes the
`HTTPException(400)` raised for an invalid audio format: every failure
of the audio path is re-raised as a 500. -/
def create_diary_entry (text : Option Str) (audio_data : Option Str)
    (entry_type : Str) (decodeRes : Option (List Nat)) (wav : Option WavFmt)
    (speechConfigured : Bool) (rec : RecResult) (client : Bool)
    (suggLlm : LLMResult) (uid : Str) (ts : Nat) : HResp :=
  let textTruthy : Bool := match text with | some t => !(t == []) | none => false
  let audioTruthy : Bool := match audio_data with | some a => !(a == []) | none => false
  let inner : Except Str Str :=
    match decodeRes with
    | none => .error "base64 decode failed".data
    | some bytes =>
      let vr := validate_audio_format wav
      if ¬ vr.1 then .error ("400: Invalid audio format: ".data ++ vr.2)
      else (transcribe_audio speechConfigured bytes rec).result
  let transcribed : Except HResp Str :=
    if audioTruthy && !textTruthy then
      match inner with
      | .error e => .error (.httpError 500 ("Audio transcription failed: ".data ++ e))
      | .ok t => .ok t
    else .ok (match text with | some t => t | none => [])
  match transcribed with
  | .error r => r
  | .ok t =>
    if t = [] then
      .httpError 400 "Either text or audio_data must be provided".data
    else
      let entry : DEntry := ⟨uid, t, entry_type, ts⟩
      let suggestions := _generate_suggestions client [entry] suggLlm
      let provided := ["id".data, "text".data, "entry_type".data, "timestamp".data,
                       "summary".data, "suggestions".data]
      if validateKwargs diaryEntryResponseSpec provided then
        .ok (.dict [("id".data, .str uid), ("text".data, .str t),
                    ("entry_type".data, .str entry_type),
                    ("timestamp".data, .str (isoformat ts)),
                    ("suggestions".data, .list (suggestions.map PyVal.str))])
      else .httpError 500 "Error creating diary entry: validation error".data

/-- main.py lines 214-220: `get_diary_summary`; a `ValidationError` from
`DiarySummaryResponse(**summary)` is caught and re-raised as a 500. -/
def get_diary_summary (suggestions : List Str) (entries : List DEntry) : HResp :=
  let summary := generate_summary suggestions entries
  if validateKwargs diarySummarySpec (summary.map (·.1)) then .ok (.dict summary)
  else .httpError 500 "Error generating summary: validation error for DiarySummaryResponse".data

inductive DeleteResult where
  | deleted
  | notFound404
deriving DecidableEq, Repr

/-- main.py lines 223-232: `delete_diary_entry`: filter the in-memory
list, then 404 when nothing was removed.  Returns the new list together
with the signalled outcome. -/
def delete_diary_entry (entries : List DEntry) (entry_id : Str) :
    List DEntry × DeleteResult :=
  let remaining := entries.filter (fun e => !(e.id == entry_id))
  if remaining.length = entries.length then (remaining, .notFound404)
  else (remaining, .deleted)

/-- main.py lines 235-274: `transcribe_clinical_note`.  The `except
HTTPException: raise` clause preserves the explicit 400; every other
exception (including the `ValueError`s of `transcribe_audio` and the
pydantic `ValidationError` from `ClinicalNoteResponse`) becomes a 500. -/
def transcribe_clinical_note (decodeRes : Option (List Nat)) (wav : Option WavFmt)
    (speechConfigured : Bool) (rec : RecResult) (client : Bool)
    (llm retryLlm : LLMResult) : HResp :=
  match decodeRes with
  | none => .httpError 500 "Error processing clinical note: base64 decode failed".data
  | some bytes =>
    let vr := validate_audio_format wav
    if ¬ vr.1 then .httpError 400 ("Invalid audio format: ".data ++ vr.2)
    else
      match (transcribe_audio speechConfigured bytes rec).result with
      | .error e => .httpError 500 ("Error processing clinical note: ".data ++ e)
      | .ok transcription =>
        let soap := generate_soap_note client llm retryLlm transcription none
        if validateKwargs clinicalNoteResponseSpec clinicalNoteResponseKwargs then
          .ok (.dict [("transcription".data, .str transcription),
                      ("soap_note".data, soapPy soap)])
        else .httpError 500 "Error processing clinical note: validation error for ClinicalNoteResponse".data

/-- main.py lines 378-415: `text_to_soap`; its blanket `except` turns the
`ClinicalNoteResponse` validation error into a 500. -/
def text_to_soap (text : Str) (client : Bool) (llm retryLlm : LLMResult) : HResp :=
  let soap := generate_soap_note client llm retryLlm text none
  if validateKwargs clinicalNoteResponseSpec clinicalNoteResponseKwargs then
    .ok (.dict [("transcription".data, .str text), ("soap_note".data, soapPy soap)])
  else .httpError 500 "Error generating SOAP note: validation error for ClinicalNoteResponse".data

/-! # Lemmas -/

/-- Closed-form description of the post-processing step
(pipeline.py lines 932-941). -/
lemma postProcess_eq (s : Sections) (tr : Str) :
    postProcess s tr =
      ⟨if pstrip s.subjective = [] ∨ pstrip s.subjective = placeholder .subjective then
          (if tr = [] then fallbackSubjective else tr)
        else pstrip s.subjective,
       if pstrip s.objective = [] then placeholder .objective else pstrip s.objective,
       if pstrip s.assessment = [] then placeholder .assessment else pstrip s.assessment,
       if pstrip s.plan = [] then placeholder .plan else pstrip s.plan⟩ := by
  have hpl : (placeholder .subjective = ([] : Str)) = False := by
    simp [placeholder]
  unfold postProcess postSec
  by_cases h1 : pstrip s.subjective = [] <;>
    by_cases h2 : tr = [] <;>
    by_cases h3 : pstrip s.subjective = placeholder .subjective <;>
    by_cases h4 : tr = placeholder .subjective <;>
    simp_all

lemma fallbackSubjective_ne_nil : fallbackSubjective ≠ [] := by decide

lemma placeholder_ne_nil (sec : SecName) : placeholder sec ≠ [] := by
  cases sec <;> decide

/-- All four post-processed sections are non-empty. -/
lemma postProcess_fields_ne_nil (s : Sections) (tr : Str) :
    (postProcess s tr).subjective ≠ [] ∧ (postProcess s tr).objective ≠ [] ∧
    (postProcess s tr).assessment ≠ [] ∧ (postProcess s tr).plan ≠ [] := by
  rw [postProcess_eq]
  refine ⟨?_, ?_, ?_, ?_⟩ <;> dsimp only
  · split_ifs with h h2
    · exact fallbackSubjective_ne_nil
    · exact h2
    · exact fun hc => h (Or.inl hc)
  · split_ifs with h
    · exact placeholder_ne_nil _
    · exact h
  · split_ifs with h
    · exact placeholder_ne_nil _
    · exact h
  · split_ifs with h
    · exact placeholder_ne_nil _
    · exact h

lemma isPrefixCh_iff : ∀ (n h : Str), isPrefixCh n h = true ↔ n <+: h
  | [], h => by simp [isPrefixCh]
  | a :: as, [] => by simp [isPrefixCh]
  | a :: as, b :: bs => by
    rw [isPrefixCh, Bool.and_eq_true, beq_iff_eq, List.cons_prefix_cons,
      isPrefixCh_iff as bs]

lemma isInfixCh_iff (n : Str) : ∀ (h : Str), isInfixCh n h = true ↔ n <:+: h
  | [] => by
    rw [isInfixCh, isPrefixCh_iff, List.infix_nil]
    exact ⟨fun hp => List.prefix_nil.mp hp, fun hp => hp ▸ List.nil_prefix⟩
  | c :: cs => by
    rw [isInfixCh, Bool.or_eq_true, isPrefixCh_iff, isInfixCh_iff n cs,
      List.infix_cons_iff]

lemma trimL_idem (l : Str) : trimL (trimL l) = trimL l :=
  List.dropWhile_idempotent pyWs l

lemma trimR_idem (l : Str) : trimR (trimR l) = trimR l := by
  unfold trimR
  rw [List.reverse_reverse, List.dropWhile_idempotent]

lemma trimR_pfx (l : Str) : trimR l <+: l := by
  have h := List.dropWhile_suffix (l := l.reverse) pyWs
  have := List.reverse_prefix.mpr h
  rwa [List.reverse_reverse] at this

/-- A list fixed by `trimL` has a non-whitespace head (or is empty). -/
lemma trimL_head_not_ws {c : Char} {t : Str} (h : trimL (c :: t) = c :: t) :
    pyWs c = false := by
  by_contra hc
  rw [Bool.not_eq_false] at hc
  have hlen : (trimL (c :: t)).length ≤ t.length := by
    unfold trimL
    rw [List.dropWhile_cons, if_pos hc]
    exact ((List.dropWhile_suffix pyWs).sublist).length_le
  rw [h] at hlen
  simp at hlen

lemma trimL_trimR_of_trimL_fixed {m : Str} (hm : trimL m = m) :
    trimL (trimR m) = trimR m := by
  cases htm : trimR m with
  | nil => rfl
  | cons c cs =>
    obtain ⟨t, ht⟩ := trimR_pfx m
    rw [htm] at ht
    have hc : pyWs c = false := by
      have hm' : trimL (c :: (cs ++ t)) = c :: (cs ++ t) := by
        rw [← List.cons_append, ht, hm]
      exact trimL_head_not_ws hm'
    unfold trimL
    rw [List.dropWhile_cons, if_neg (by simp [hc])]

lemma pstrip_idem (l : Str) : pstrip (pstrip l) = pstrip l := by
  unfold pstrip
  rw [trimL_trimR_of_trimL_fixed (trimL_idem l), trimR_idem]

lemma pstrip_infix (l : Str) : pstrip l <:+: l :=
  ((trimR_pfx (trimL l)).isInfix).trans (List.dropWhile_suffix pyWs).isInfix

/-- `splitNN` of a cons whose head is not the start of a blank-line
separator, unfolded. -/
lemma splitNN_cons_eq (c : Char) (rest : Str)
    (hne : ∀ rest2 : List Char, c = '\n' → rest = '\n' :: rest2 → False) :
    splitNN (c :: rest) =
      match splitNN rest with
      | [] => [[c]]
      | h :: t => (c :: h) :: t := by
  rw [splitNN]
  exact hne

/-- Every chunk of `splitNN` is an infix of the input, and the first
chunk is a prefix. -/
lemma splitNN_struct : ∀ l : Str,
    (∀ x ∈ splitNN l, x <:+: l) ∧ (∀ h t, splitNN l = h :: t → h <+: l) := by
  intro l
  induction l using splitNN.induct with
  | case1 =>
    refine ⟨?_, ?_⟩
    · intro x hx
      rw [splitNN] at hx
      simp at hx
      simp [hx]
    · intro h t ht
      rw [splitNN] at ht
      cases ht
      exact List.nil_prefix
  | case2 rest ih =>
    refine ⟨?_, ?_⟩
    · intro x hx
      rw [splitNN] at hx
      rcases List.mem_cons.mp hx with hx | hx
      · simp [hx]
      · exact List.infix_cons (List.infix_cons (ih.1 x hx))
    · intro h t ht
      rw [splitNN] at ht
      cases ht
      exact List.nil_prefix
  | case3 c rest hne heq ih =>
    have hrw := splitNN_cons_eq c rest hne
    rw [heq] at hrw
    refine ⟨?_, ?_⟩
    · intro x hx
      rw [hrw] at hx
      simp at hx
      rw [hx]
      exact (List.cons_prefix_cons.mpr ⟨rfl, List.nil_prefix⟩).isInfix
    · intro h t ht
      rw [hrw] at ht
      cases ht
      exact List.cons_prefix_cons.mpr ⟨rfl, List.nil_prefix⟩
  | case4 c rest hne h0 t0 heq ih =>
    have hrw := splitNN_cons_eq c rest hne
    rw [heq] at hrw
    refine ⟨?_, ?_⟩
    · intro x hx
      rw [hrw] at hx
      rcases List.mem_cons.mp hx with hx | hx
      · rw [hx]
        exact (List.cons_prefix_cons.mpr ⟨rfl, ih.2 h0 t0 heq⟩).isInfix
      · exact List.infix_cons (ih.1 x (heq ▸ List.mem_cons_of_mem h0 hx))
    · intro h t ht
      rw [hrw] at ht
      cases ht
      exact List.cons_prefix_cons.mpr ⟨rfl, ih.2 h0 t0 heq⟩

/-- Every paragraph is a trimmed, non-empty infix of the text. -/
lemma paragraphsOf_mem {text x : Str} (hx : x ∈ paragraphsOf text) :
    pstrip x = x ∧ x ≠ [] ∧ x <:+: text := by
  unfold paragraphsOf at hx
  obtain ⟨hmap, hne⟩ := List.mem_filter.mp hx
  obtain ⟨y, hy, hxy⟩ := List.mem_map.mp hmap
  refine ⟨?_, by simpa using hne, ?_⟩
  · rw [← hxy, pstrip_idem]
  · exact (hxy ▸ pstrip_infix y).trans ((splitNN_struct text).1 y hy)

lemma trimL_eq_self_of_head (l : Str)
    (hh : ∀ c, l.head? = some c → pyWs c = false) : trimL l = l := by
  cases l with
  | nil => rfl
  | cons c t =>
    unfold trimL
    rw [List.dropWhile_cons, if_neg (by simp [hh c rfl])]

lemma trimR_eq_self_of_last (l : Str)
    (hl : ∀ c, l.getLast? = some c → pyWs c = false) : trimR l = l := by
  unfold trimR
  cases hr : l.reverse with
  | nil =>
    simpa using (List.reverse_eq_nil_iff.mp hr).symm
  | cons c r =>
    have hcl : l.getLast? = some c := by
      rw [← List.head?_reverse, hr]; rfl
    rw [List.dropWhile_cons, if_neg (by simp [hl c hcl]), ← hr, List.reverse_reverse]

lemma pstrip_fixed_of_ends (l : Str)
    (hh : ∀ c, l.head? = some c → pyWs c = false)
    (hl : ∀ c, l.getLast? = some c → pyWs c = false) : pstrip l = l := by
  unfold pstrip
  rw [trimL_eq_self_of_head l hh, trimR_eq_self_of_last l hl]

lemma trims_fixed_of_pstrip_fixed {l : Str} (h : pstrip l = l) :
    trimL l = l ∧ trimR l = l := by
  have hs : trimL l <:+ l := List.dropWhile_suffix pyWs
  have hlen2 : l.length ≤ (trimL l).length := by
    have h1 := (trimR_pfx (trimL l)).sublist.length_le
    rw [show trimR (trimL l) = pstrip l from rfl, h] at h1
    exact h1
  have hL : trimL l = l :=
    hs.sublist.eq_of_length (le_antisymm hs.sublist.length_le hlen2)
  have h2 : trimR (trimL l) = l := h
  rw [hL] at h2
  exact ⟨hL, h2⟩

lemma head_not_ws_of_pstrip_fixed {c : Char} {t : Str}
    (h : pstrip (c :: t) = c :: t) : pyWs c = false :=
  trimL_head_not_ws (trims_fixed_of_pstrip_fixed h).1

lemma last_not_ws_of_pstrip_fixed {l : Str} {c : Char} (h : pstrip l = l)
    (hc : l.getLast? = some c) : pyWs c = false := by
  have hR := (trims_fixed_of_pstrip_fixed h).2
  have hrev : List.dropWhile pyWs l.reverse = l.reverse := by
    have h3 := congrArg List.reverse hR
    rwa [show trimR l = (l.reverse.dropWhile pyWs).reverse from rfl,
      List.reverse_reverse] at h3
  have hhead : l.reverse.head? = some c := by rw [List.head?_reverse]; exact hc
  cases hrl : l.reverse with
  | nil => rw [hrl] at hhead; cases hhead
  | cons c2 r =>
    rw [hrl] at hhead hrev
    have hc2 : c2 = c := by simpa using hhead
    have hns := trimL_head_not_ws (show trimL (c2 :: r) = c2 :: r from hrev)
    rwa [hc2] at hns

lemma endsWithNl_false_of_good {l : Str} (hs : pstrip l = l) :
    endsWithNl l = false := by
  unfold endsWithNl
  cases hc : l.getLast? with
  | none => rfl
  | some c =>
    have hcw := last_not_ws_of_pstrip_fixed hs hc
    have hcne : c ≠ '\n' := by
      intro h'
      rw [h'] at hcw
      simp [pyWs] at hcw
    simp [hcne]

lemma joinNl_one (l : Str) : joinNl [l] = l := rfl

lemma joinNl_two (l l2 : Str) (L : List Str) :
    joinNl (l :: l2 :: L) = l ++ '\n' :: joinNl (l2 :: L) := by
  show joinSep ['\n'] (l :: l2 :: L) = _
  rw [joinSep]
  · simp [joinNl]
  · exact fun h => (List.cons_ne_nil l2 L) h

/-- The join of non-empty trimmed lines is non-empty, trimmed, and has
non-whitespace end characters. -/
lemma joinNl_good : ∀ L : List Str, L ≠ [] →
    (∀ l ∈ L, pstrip l = l ∧ l ≠ []) →
    pstrip (joinNl L) = joinNl L ∧ joinNl L ≠ [] ∧
    (∀ c, (joinNl L).getLast? = some c → pyWs c = false)
  | [], hne, _ => absurd rfl hne
  | [l], _, hg => by
    obtain ⟨hs, hne⟩ := hg l (List.mem_cons_self _ _)
    exact ⟨hs, hne, fun c hc => last_not_ws_of_pstrip_fixed hs hc⟩
  | l :: l2 :: L, _, hg => by
    obtain ⟨hs, hne⟩ := hg l (List.mem_cons_self _ _)
    obtain ⟨ihs, ihne, ihlast⟩ := joinNl_good (l2 :: L) (List.cons_ne_nil _ _)
      (fun x hx => hg x (List.mem_cons_of_mem _ hx))
    rw [joinNl_two]
    have hlast : ∀ c, (l ++ '\n' :: joinNl (l2 :: L)).getLast? = some c → pyWs c = false := by
      intro c hc
      rw [show l ++ '\n' :: joinNl (l2 :: L) = (l ++ ['\n']) ++ joinNl (l2 :: L) by simp,
        List.getLast?_append_of_ne_nil _ ihne] at hc
      exact ihlast c hc
    refine ⟨?_, by simp [hne], hlast⟩
    refine pstrip_fixed_of_ends _ ?_ hlast
    intro c hc
    cases l with
    | nil => exact absurd rfl hne
    | cons c0 t =>
      have hc0 : c0 = c := by simpa using hc
      rw [← hc0]
      exact head_not_ws_of_pstrip_fixed hs

lemma splitNl_cons_eq (c : Char) (rest : Str) (hne : c = '\n' → False) :
    splitNl (c :: rest) =
      match splitNl rest with
      | [] => [[c]]
      | h :: t => (c :: h) :: t := by
  rw [splitNl]
  exact hne

lemma splitNl_no_nl (l : Str) (h : '\n' ∉ l) : splitNl l = [l] := by
  induction l with
  | nil => rfl
  | cons c t ih =>
    have hc : c = '\n' → False := fun hh => h (hh ▸ List.mem_cons_self _ _)
    rw [splitNl_cons_eq c t hc, ih (fun hm => h (List.mem_cons_of_mem _ hm))]

lemma splitNl_append_nl (l rest : Str) (h : '\n' ∉ l) :
    splitNl (l ++ '\n' :: rest) = l :: splitNl rest := by
  induction l with
  | nil =>
    show splitNl ('\n' :: rest) = [] :: splitNl rest
    rfl
  | cons c t ih =>
    have hc : c = '\n' → False := fun hh => h (hh ▸ List.mem_cons_self _ _)
    rw [List.cons_append, splitNl_cons_eq c _ hc,
      ih (fun hm => h (List.mem_cons_of_mem _ hm))]

lemma splitNl_joinNl : ∀ L : List Str, L ≠ [] → (∀ l ∈ L, '\n' ∉ l) →
    splitNl (joinNl L) = L
  | [], hne, _ => absurd rfl hne
  | [l], _, h => by
    rw [joinNl_one]
    exact splitNl_no_nl l (h l (List.mem_cons_self _ _))
  | l :: l2 :: L, _, h => by
    rw [joinNl_two, splitNl_append_nl _ _ (h l (List.mem_cons_self _ _)),
      splitNl_joinNl (l2 :: L) (List.cons_ne_nil _ _)
        (fun x hx => h x (List.mem_cons_of_mem _ hx))]

/-- The accumulator value strategy 1 builds from the body lines of one
section, starting from `a` (for non-blank, pre-trimmed lines the blank
and extra-newline branches cannot fire). -/
def accJoin (a : Str) : List Str → Str
  | [] => a
  | l :: L => accJoin (if a = [] then l else a ++ '\n' :: l) L

def joinNlPre : List Str → Str
  | [] => []
  | l :: L => '\n' :: (l ++ joinNlPre L)

lemma joinNl_eq_pre : ∀ (l : Str) (L : List Str), joinNl (l :: L) = l ++ joinNlPre L
  | l, [] => by simp [joinNl_one, joinNlPre]
  | l, l2 :: L => by
    rw [joinNl_two, joinNl_eq_pre l2 L]
    simp [joinNlPre]

lemma accJoin_acc : ∀ (L : List Str) (a : Str), a ≠ [] →
    accJoin a L = a ++ joinNlPre L
  | [], a, _ => by simp [accJoin, joinNlPre]
  | l :: L, a, ha => by
    rw [accJoin, if_neg ha, accJoin_acc L _ (by simp [ha]), joinNlPre]
    simp

lemma accJoin_nil_eq_joinNl (L : List Str) (h : ∀ l ∈ L, l ≠ []) (hL : L ≠ []) :
    accJoin [] L = joinNl L := by
  cases L with
  | nil => exact absurd rfl hL
  | cons l L =>
    rw [accJoin, if_pos rfl, accJoin_acc L l (h l (List.mem_cons_self _ _)),
      joinNl_eq_pre]

lemma Sections.get_set (s : Sections) (n : SecName) (v : Str) :
    (s.set n v).get n = v := by cases n <;> rfl

lemma Sections.set_set (s : Sections) (n : SecName) (v w : Str) :
    (s.set n v).set n w = s.set n w := by cases n <;> rfl

lemma Sections.set_get (s : Sections) (n : SecName) :
    s.set n (s.get n) = s := by cases n <;> rfl

lemma scanLine_idle (st : ScanSt) (line : Str)
    (hcur : st.cur = none)
    (hm : markerTable.find? (fun p => isPrefixCh p.2 (plower (pstrip line))) = none) :
    scanLine st line = st := by
  unfold scanLine
  by_cases hb : pstrip line = []
  · simp [hb, hcur]
  · simp [hb, hm, hcur]

lemma foldl_scan_idle (L : List Str) (st : ScanSt)
    (hcur : st.cur = none)
    (hm : ∀ ℓ ∈ L, markerTable.find? (fun p => isPrefixCh p.2 (plower (pstrip ℓ))) = none) :
    L.foldl scanLine st = st := by
  induction L with
  | nil => rfl
  | cons ℓ L ih =>
    rw [List.foldl_cons, scanLine_idle st ℓ hcur (hm ℓ (List.mem_cons_self _ _))]
    exact ih (fun x hx => hm x (List.mem_cons_of_mem _ hx))

lemma endsWithNl_append (x l : Str) (h : l ≠ []) :
    endsWithNl (x ++ l) = endsWithNl l := by
  unfold endsWithNl
  rw [List.getLast?_append_of_ne_nil _ h]

lemma trimR_rev_fixed {l : Str} (hR : trimR l = l) :
    List.dropWhile pyWs l.reverse = l.reverse := by
  have h3 := congrArg List.reverse hR
  rwa [show trimR l = (l.reverse.dropWhile pyWs).reverse from rfl,
    List.reverse_reverse] at h3

/-- Trimming the between-marker region (a newline, the joined body
lines, a newline) of a section recovers exactly the joined body. -/
lemma pstrip_wrap (X : Str) (hfix : pstrip X = X) (hne : X ≠ []) :
    pstrip ('\n' :: (X ++ ['\n'])) = X := by
  obtain ⟨hL, hR⟩ := trims_fixed_of_pstrip_fixed hfix
  show trimR (List.dropWhile pyWs ('\n' :: (X ++ ['\n']))) = X
  rw [List.dropWhile_cons, if_pos (by simp [pyWs])]
  cases X with
  | nil => exact absurd rfl hne
  | cons c t =>
    have hcns := trimL_head_not_ws hL
    rw [List.cons_append, List.dropWhile_cons, if_neg (by simp [hcns])]
    show trimR ((c :: t) ++ ['\n']) = c :: t
    unfold trimR
    rw [List.reverse_append, show (['\n'] : Str).reverse = ['\n'] from rfl,
      List.singleton_append, List.dropWhile_cons, if_pos (by simp [pyWs]),
      trimR_rev_fixed hR, List.reverse_reverse]

/-- Trimming the between-marker region of the final section (a newline
then the joined body, running to end of text). -/
lemma pstrip_wrapL (X : Str) (hfix : pstrip X = X) :
    pstrip ('\n' :: X) = X := by
  obtain ⟨hL, hR⟩ := trims_fixed_of_pstrip_fixed hfix
  show trimR (List.dropWhile pyWs ('\n' :: X)) = X
  rw [List.dropWhile_cons, if_pos (by simp [pyWs]),
    show List.dropWhile pyWs X = trimL X from rfl, hL, hR]

/-- A body line (trimmed, non-blank, marker-free) appends to the
current section. -/
lemma scanLine_content (st : ScanSt) (s : SecName) (l : Str)
    (hcur : st.cur = some s) (hcol : st.collecting = true)
    (hsl : pstrip l = l) (hne : l ≠ [])
    (hm : markerTable.find? (fun p => isPrefixCh p.2 (plower l)) = none) :
    scanLine st l = appendLine st s l := by
  have hoth : otherMarkerHit s (plower l) = false := by
    rw [otherMarkerHit, List.any_eq_false]
    intro p hp
    have hfp := List.find?_eq_none.mp hm p hp
    simp only [Bool.not_eq_true] at hfp
    simp [hfp]
  unfold scanLine
  rw [hsl]
  simp [hne, hm, hcur, hcol, hoth]

/-- Folding strategy 1 over a section's body lines accumulates
`accJoin` into the current section and touches nothing else. -/
lemma foldl_scan_content : ∀ (L : List Str) (st : ScanSt) (s : SecName),
    st.cur = some s → st.collecting = true →
    (st.secs.get s ≠ [] → endsWithNl (st.secs.get s) = false) →
    (∀ l ∈ L, pstrip l = l ∧ l ≠ [] ∧
      markerTable.find? (fun p => isPrefixCh p.2 (plower l)) = none) →
    L.foldl scanLine st = { st with secs := st.secs.set s (accJoin (st.secs.get s) L) }
  | [], st, s, hcur, hcol, hinv, hg => by
    rw [List.foldl_nil, accJoin, Sections.set_get]
  | l :: L, st, s, hcur, hcol, hinv, hg => by
    obtain ⟨hsl, hne, hm⟩ := hg l (List.mem_cons_self _ _)
    rw [List.foldl_cons, scanLine_content st s l hcur hcol hsl hne hm]
    have happ : appendLine st s l =
        { st with secs := st.secs.set s (if st.secs.get s = [] then l else st.secs.get s ++ '\n' :: l) } := by
      unfold appendLine
      dsimp only
      by_cases hae : st.secs.get s = []
      · rw [if_neg (by simp [hae]), if_pos hae, hae]
        simp
      · have hend := hinv hae
        rw [if_pos (show st.secs.get s ≠ [] ∧ ¬ endsWithNl (st.secs.get s) = true from
              ⟨hae, by simp [hend]⟩),
          if_neg hae]
        simp
    rw [happ]
    have hcons : (if st.secs.get s = [] then l else st.secs.get s ++ '\n' :: l) ≠ [] := by
      split_ifs with hsplit
      · exact hne
      · simp
    have hendv : endsWithNl (if st.secs.get s = [] then l
        else st.secs.get s ++ '\n' :: l) = false := by
      split_ifs with hsplit
      · exact endsWithNl_false_of_good hsl
      · rw [show st.secs.get s ++ '\n' :: l = (st.secs.get s ++ ['\n']) ++ l by simp,
          endsWithNl_append _ _ hne]
        exact endsWithNl_false_of_good hsl
    have hstep := foldl_scan_content L
      { st with secs := st.secs.set s (if st.secs.get s = [] then l else st.secs.get s ++ '\n' :: l) } s
      hcur hcol
      (by rw [Sections.get_set]; intro _; exact hendv)
      (fun x hx => hg x (List.mem_cons_of_mem _ hx))
    rw [hstep, Sections.get_set, Sections.set_set, accJoin]

/-- Strategy 1 collects nothing when no line starts with a marker. -/
lemma rawScan_no_marker (text : Str)
    (hm : ∀ ℓ ∈ splitNl text,
      markerTable.find? (fun p => isPrefixCh p.2 (plower (pstrip ℓ))) = none) :
    rawScan text = ⟨[], [], [], []⟩ := by
  unfold rawScan
  rw [foldl_scan_idle _ _ rfl hm]
  rfl

/-- Strategy 2 produces nothing for a section none of whose keywords
occurs in the lowercased text. -/
lemma kwSection_no_kw (text tl : Str) (sec : SecName)
    (hk : ∀ kw ∈ keywordTable sec, isInfixCh kw tl = false) :
    kwSection text tl sec = [] := by
  unfold kwSection
  rw [List.find?_eq_none.mpr (fun kw hkw => by simp [hk kw hkw])]

/-- When strategies 1 and 2 both produce nothing, the parser's result is
the post-processed paragraph assignment. -/
lemma parse_eq_paragraphAssign (text tr : Str)
    (hraw : rawScan text = ⟨[], [], [], []⟩)
    (hs2 : ∀ sec, kwSection text (plower text) sec = []) :
    _parse_soap_response text tr = postProcess (paragraphAssign text) tr := by
  unfold _parse_soap_response
  dsimp only
  rw [hraw]
  simp only [hs2]
  rw [ite_self]
  rw [if_neg (by decide : ¬ Sections.anyVal ⟨[], [], [], []⟩ = true)]

/-! # Claims -/

/-- C1: for every input string `soap_text`, and whether or not the
optional `transcription` argument is supplied (the unsupplied default is
the empty string), `_parse_soap_response` returns a mapping with exactly
the four keys subjective/objective/assessment/plan — captured by the
fixed four-field `Sections` structure the dict is embedded as — each
bound to a non-empty string.  The embedded routine is a total function
on total string primitives, which is the "never throws" part of the
contract. -/
theorem parse_soap_always_four_nonempty (soap_text transcription : Str) :
    (_parse_soap_response soap_text transcription).subjective ≠ [] ∧
    (_parse_soap_response soap_text transcription).objective ≠ [] ∧
    (_parse_soap_response soap_text transcription).assessment ≠ [] ∧
    (_parse_soap_response soap_text transcription).plan ≠ [] :=
  postProcess_fields_ne_nil _ _

/-- C6 counterexample: on the empty response with no transcript, the
subjective section is still empty after trimming and the transcript is
not supplied, yet post-processing does not leave the placeholder
`"Subjective information to be documented."` there — the final override
of pipeline.py lines 940-941 replaces it with
`"Patient symptoms and complaints to be documented."`. -/
theorem subjective_placeholder_cex :
    (_parse_soap_response [] []).subjective ≠ placeholder .subjective ∧
    (_parse_soap_response [] []).subjective = fallbackSubjective := by decide

/-- C6 amended: each section is whitespace-trimmed; objective,
assessment and plan, if empty after trimming, are replaced with the
placeholder `"<Section> information to be documented."`; the subjective
section, whenever it is empty after trimming or equal to the subjective
placeholder, is instead set to the transcript when that was supplied
non-empty, and to `"Patient symptoms and complaints to be documented."`
otherwise. -/
theorem post_processing_amended (s : Sections) (tr : Str) :
    postProcess s tr =
      ⟨if pstrip s.subjective = [] ∨ pstrip s.subjective = placeholder .subjective then
          (if tr = [] then fallbackSubjective else tr)
        else pstrip s.subjective,
       if pstrip s.objective = [] then placeholder .objective else pstrip s.objective,
       if pstrip s.assessment = [] then placeholder .assessment else pstrip s.assessment,
       if pstrip s.plan = [] then placeholder .plan else pstrip s.plan⟩ :=
  postProcess_eq s tr

/-- An input with explicit marker lines for all four sections whose
subjective body contains a blank line. -/
def c4Text : Str :=
  "===SUBJECTIVE===\nA\n\nB\n===OBJECTIVE===\nO\n===ASSESSMENT===\nC\n===PLAN===\nP".data

/-- The text lying between the `===SUBJECTIVE===` marker and the next
section marker of `c4Text`, verbatim. -/
def c4Between : Str := "\nA\n\nB\n".data

/-- C4 counterexample: on `c4Text` — which carries explicit
`===SECTION===` marker lines for all four sections — strategy 1 does
not assign the subjective section the between-marker text verbatim
modulo whitespace trimming: the blank line inside the section is
collapsed, yielding `"A\nB"` instead of `"A\n\nB"`. -/
theorem marker_scan_verbatim_cex :
    (_parse_soap_response c4Text []).subjective = "A\nB".data ∧
    (_parse_soap_response c4Text []).subjective ≠ pstrip c4Between := by decide

/-- C8: every audio input shorter than the 1000-byte minimum-length
threshold is rejected by `transcribe_audio` with an error before the
external speech-recognition call is issued (whatever the recognition
outcome `rec` would have been, and whether or not the speech service is
configured). -/
theorem short_audio_rejected_before_external_call
    (cfg : Bool) (audio : List Nat) (rec : RecResult)
    (h : audio.length < 1000) :
    (transcribe_audio cfg audio rec).externalCalled = false ∧
    ∃ msg, (transcribe_audio cfg audio rec).result = .error msg := by
  cases cfg with
  | false => exact ⟨rfl, notConfiguredMsg, rfl⟩
  | true =>
    have hrw : transcribe_audio true audio rec = ⟨.error tooShortMsg, false⟩ := by
      unfold transcribe_audio
      rw [if_neg (by simp), if_pos h]
    rw [hrw]
    exact ⟨rfl, tooShortMsg, rfl⟩

theorem short_audio_rejected_witness :
    ([] : List Nat).length < 1000 ∧
    ((transcribe_audio true [] .otherFailure).externalCalled = false ∧
     ∃ msg, (transcribe_audio true [] .otherFailure).result = .error msg) :=
  ⟨by decide, short_audio_rejected_before_external_call true [] .otherFailure (by decide)⟩

/-- C10: whenever the external chat-completion call raises (`llm =
none`, with the OpenAI client configured so that the call is actually
made), `generate_soap_note` returns the deterministic rule-based
fallback note, `_generate_suggestions` returns the fixed two-element
suggestion list, and `update_soap_incremental` returns the current SOAP
state unchanged.  All three embedded operations are total functions:
the exception is absorbed by the `except` branch, never propagated. -/
theorem llm_failure_degrades_to_fallback
    (retryLlm : LLMResult) (tr : Str) (he : Option HealthEnts)
    (e : DEntry) (es : List DEntry) (cur : Sections) (full : Str) :
    generate_soap_note true none retryLlm tr he = _generate_fallback_soap tr he ∧
    _generate_suggestions true (e :: es) none = suggestionFallback ∧
    update_soap_incremental true none cur full = cur := by
  refine ⟨?_, ?_, ?_⟩
  · simp [generate_soap_note]
  · simp [_generate_suggestions]
  · simp [update_soap_incremental]

/-- C2: the kwargs passed to `ClinicalNoteResponse(...)` by the two
clinical handlers omit the required default-less fields
`health_entities` and `confidence_score`, so constructing the response
model fails validation; consequently, whatever the request inputs and
external-service outcomes, neither `POST /api/clinical/transcribe` nor
`POST /api/clinical/text-to-soap` ever returns a successful body. -/
theorem clinical_note_response_never_built :
    validateKwargs clinicalNoteResponseSpec clinicalNoteResponseKwargs = false ∧
    (∀ (d : Option (List Nat)) (w : Option WavFmt) (cfg : Bool) (rec : RecResult)
       (client : Bool) (llm retryLlm : LLMResult) (body : PyVal),
       transcribe_clinical_note d w cfg rec client llm retryLlm ≠ .ok body) ∧
    (∀ (text : Str) (client : Bool) (llm retryLlm : LLMResult) (body : PyVal),
       text_to_soap text client llm retryLlm ≠ .ok body) := by
  have hval : validateKwargs clinicalNoteResponseSpec clinicalNoteResponseKwargs = false := by
    decide
  refine ⟨hval, ?_, ?_⟩
  · intro d w cfg rec client llm retryLlm body
    unfold transcribe_clinical_note
    match d with
    | none => simp
    | some bytes =>
      simp only [hval, Bool.false_eq_true, if_false]
      split_ifs with h1
      · generalize (transcribe_audio cfg bytes rec).result = r
        cases r <;> simp
      · simp
  · intro text client llm retryLlm body
    unfold text_to_soap
    simp [hval]

/-- C3: for a non-empty entries list, `generate_summary` returns a dict
whose keys include `common_diseases` but not the `common_symptoms` key
that `DiarySummaryResponse` requires, so building the response model
fails validation and `GET /api/diary/summary` answers with the 500 the
handler wraps that error in; for the empty list the dict carries
`common_symptoms = []` and satisfies the schema, so the endpoint
succeeds. -/
theorem diary_summary_schema_mismatch (suggs : List Str) (e : DEntry) (es : List DEntry) :
    (((generate_summary suggs (e :: es)).map Prod.fst).contains "common_diseases".data = true ∧
     ((generate_summary suggs (e :: es)).map Prod.fst).contains "common_symptoms".data = false ∧
     validateKwargs diarySummarySpec ((generate_summary suggs (e :: es)).map Prod.fst) = false) ∧
    (("common_symptoms".data, PyVal.list []) ∈ generate_summary suggs [] ∧
     validateKwargs diarySummarySpec ((generate_summary suggs []).map Prod.fst) = true) ∧
    get_diary_summary suggs (e :: es) =
      .httpError 500 "Error generating summary: validation error for DiarySummaryResponse".data ∧
    (∃ body, get_diary_summary suggs [] = .ok body) := by
  have hkeys : (generate_summary suggs (e :: es)).map Prod.fst =
      ["total_entries".data, "date_range".data, "sentiment_trend".data,
       "common_diseases".data, "mood_patterns".data, "suggestions".data,
       "visualization_data".data] := by
    unfold generate_summary
    rw [if_neg (List.cons_ne_nil e es)]
    rfl
  have hempty : (generate_summary suggs []).map Prod.fst =
      ["total_entries".data, "date_range".data, "sentiment_trend".data,
       "common_symptoms".data, "mood_patterns".data, "suggestions".data,
       "visualization_data".data] := rfl
  refine ⟨⟨?_, ?_, ?_⟩, ⟨?_, ?_⟩, ?_, ?_⟩
  · rw [hkeys]; decide
  · rw [hkeys]; decide
  · rw [hkeys]; decide
  · show ("common_symptoms".data, PyVal.list []) ∈ generate_summary suggs []
    exact List.mem_cons_of_mem _ (List.mem_cons_of_mem _
      (List.mem_cons_of_mem _ (List.mem_cons_self _ _)))
  · rw [hempty]; decide
  · show (if validateKwargs diarySummarySpec
            ((generate_summary suggs (e :: es)).map Prod.fst) = true
          then HResp.ok (PyVal.dict (generate_summary suggs (e :: es)))
          else HResp.httpError 500
            "Error generating summary: validation error for DiarySummaryResponse".data) = _
    rw [hkeys, if_neg (by decide)]
  · refine ⟨PyVal.dict (generate_summary suggs []), ?_⟩
    show (if validateKwargs diarySummarySpec
            ((generate_summary suggs []).map Prod.fst) = true
          then HResp.ok (PyVal.dict (generate_summary suggs []))
          else HResp.httpError 500
            "Error generating summary: validation error for DiarySummaryResponse".data) = _
    rw [hempty, if_pos (by decide)]

/-- C4 amended: for marker-delimited input whose body lines are
non-blank, pre-trimmed, newline-free and start with no marker, strategy
1 assigns each section exactly the text between its marker and the next
marker (or end of text), modulo whitespace trimming — the sense in
which the original claim holds once blank lines inside a section (which
collapse, see the counterexample) and per-line padding are excluded;
the subjective body must also differ from the placeholder string, which
post-processing would replace. -/
theorem marker_scan_verbatim_amended (L1 L2 L3 L4 : List Str) (tr : Str)
    (hgood : ∀ l ∈ L1 ++ L2 ++ L3 ++ L4,
      pstrip l = l ∧ l ≠ [] ∧ ('\n' ∉ l) ∧
      markerTable.find? (fun p => isPrefixCh p.2 (plower l)) = none)
    (h1 : L1 ≠ []) (h2 : L2 ≠ []) (h3 : L3 ≠ []) (h4 : L4 ≠ [])
    (hph : joinNl L1 ≠ placeholder .subjective) :
    _parse_soap_response
      (joinNl (["===SUBJECTIVE===".data] ++ L1 ++ ["===OBJECTIVE===".data] ++ L2 ++
               ["===ASSESSMENT===".data] ++ L3 ++ ["===PLAN===".data] ++ L4)) tr =
      ⟨pstrip ('\n' :: (joinNl L1 ++ ['\n'])), pstrip ('\n' :: (joinNl L2 ++ ['\n'])),
       pstrip ('\n' :: (joinNl L3 ++ ['\n'])), pstrip ('\n' :: joinNl L4)⟩ := by
  have hg1 : ∀ l ∈ L1, pstrip l = l ∧ l ≠ [] ∧
      markerTable.find? (fun p => isPrefixCh p.2 (plower l)) = none := by
    intro l hl
    obtain ⟨a, b, -, d⟩ := hgood l (by simp [hl])
    exact ⟨a, b, d⟩
  have hg2 : ∀ l ∈ L2, pstrip l = l ∧ l ≠ [] ∧
      markerTable.find? (fun p => isPrefixCh p.2 (plower l)) = none := by
    intro l hl
    obtain ⟨a, b, -, d⟩ := hgood l (by simp [hl])
    exact ⟨a, b, d⟩
  have hg3 : ∀ l ∈ L3, pstrip l = l ∧ l ≠ [] ∧
      markerTable.find? (fun p => isPrefixCh p.2 (plower l)) = none := by
    intro l hl
    obtain ⟨a, b, -, d⟩ := hgood l (by simp [hl])
    exact ⟨a, b, d⟩
  have hg4 : ∀ l ∈ L4, pstrip l = l ∧ l ≠ [] ∧
      markerTable.find? (fun p => isPrefixCh p.2 (plower l)) = none := by
    intro l hl
    obtain ⟨a, b, -, d⟩ := hgood l (by simp [hl])
    exact ⟨a, b, d⟩
  have hne1 : ∀ l ∈ L1, l ≠ [] := fun l hl => (hg1 l hl).2.1
  have hne2 : ∀ l ∈ L2, l ≠ [] := fun l hl => (hg2 l hl).2.1
  have hne3 : ∀ l ∈ L3, l ≠ [] := fun l hl => (hg3 l hl).2.1
  have hne4 : ∀ l ∈ L4, l ≠ [] := fun l hl => (hg4 l hl).2.1
  obtain ⟨hj1fix, hj1ne, -⟩ := joinNl_good L1 h1
    (fun l hl => ⟨(hg1 l hl).1, (hg1 l hl).2.1⟩)
  obtain ⟨hj2fix, hj2ne, -⟩ := joinNl_good L2 h2
    (fun l hl => ⟨(hg2 l hl).1, (hg2 l hl).2.1⟩)
  obtain ⟨hj3fix, hj3ne, -⟩ := joinNl_good L3 h3
    (fun l hl => ⟨(hg3 l hl).1, (hg3 l hl).2.1⟩)
  obtain ⟨hj4fix, hj4ne, -⟩ := joinNl_good L4 h4
    (fun l hl => ⟨(hg4 l hl).1, (hg4 l hl).2.1⟩)
  have hnn : ∀ l ∈ ["===SUBJECTIVE===".data] ++ L1 ++ ["===OBJECTIVE===".data] ++ L2 ++
      ["===ASSESSMENT===".data] ++ L3 ++ ["===PLAN===".data] ++ L4, '\n' ∉ l := by
    intro l hl
    simp only [List.mem_append, List.mem_singleton] at hl
    rcases hl with ((((((h | h) | h) | h) | h) | h) | h) | h
    · subst h; decide
    · exact (hgood l (by simp [h])).2.2.1
    · subst h; decide
    · exact (hgood l (by simp [h])).2.2.1
    · subst h; decide
    · exact (hgood l (by simp [h])).2.2.1
    · subst h; decide
    · exact (hgood l (by simp [h])).2.2.1
  have hlines : splitNl (joinNl (["===SUBJECTIVE===".data] ++ L1 ++
      ["===OBJECTIVE===".data] ++ L2 ++ ["===ASSESSMENT===".data] ++ L3 ++
      ["===PLAN===".data] ++ L4)) =
      ["===SUBJECTIVE===".data] ++ L1 ++ ["===OBJECTIVE===".data] ++ L2 ++
      ["===ASSESSMENT===".data] ++ L3 ++ ["===PLAN===".data] ++ L4 :=
    splitNl_joinNl _ (by simp) hnn
  have e1 : List.foldl scanLine initSt ["===SUBJECTIVE===".data] =
      ⟨⟨[], [], [], []⟩, some .subjective, true⟩ := rfl
  have e2 : List.foldl scanLine ⟨⟨[], [], [], []⟩, some .subjective, true⟩ L1 =
      ⟨⟨joinNl L1, [], [], []⟩, some .subjective, true⟩ := by
    rw [foldl_scan_content L1 _ .subjective rfl rfl (fun h => absurd rfl h) hg1]
    simp only [Sections.get, Sections.set]
    rw [accJoin_nil_eq_joinNl L1 hne1 h1]
  have e3 : List.foldl scanLine ⟨⟨joinNl L1, [], [], []⟩, some .subjective, true⟩
      ["===OBJECTIVE===".data] =
      ⟨⟨joinNl L1, [], [], []⟩, some .objective, true⟩ := rfl
  have e4 : List.foldl scanLine ⟨⟨joinNl L1, [], [], []⟩, some .objective, true⟩ L2 =
      ⟨⟨joinNl L1, joinNl L2, [], []⟩, some .objective, true⟩ := by
    rw [foldl_scan_content L2 _ .objective rfl rfl (fun h => absurd rfl h) hg2]
    simp only [Sections.get, Sections.set]
    rw [accJoin_nil_eq_joinNl L2 hne2 h2]
  have e5 : List.foldl scanLine ⟨⟨joinNl L1, joinNl L2, [], []⟩, some .objective, true⟩
      ["===ASSESSMENT===".data] =
      ⟨⟨joinNl L1, joinNl L2, [], []⟩, some .assessment, true⟩ := rfl
  have e6 : List.foldl scanLine ⟨⟨joinNl L1, joinNl L2, [], []⟩, some .assessment, true⟩ L3 =
      ⟨⟨joinNl L1, joinNl L2, joinNl L3, []⟩, some .assessment, true⟩ := by
    rw [foldl_scan_content L3 _ .assessment rfl rfl (fun h => absurd rfl h) hg3]
    simp only [Sections.get, Sections.set]
    rw [accJoin_nil_eq_joinNl L3 hne3 h3]
  have e7 : List.foldl scanLine
      ⟨⟨joinNl L1, joinNl L2, joinNl L3, []⟩, some .assessment, true⟩
      ["===PLAN===".data] =
      ⟨⟨joinNl L1, joinNl L2, joinNl L3, []⟩, some .plan, true⟩ := rfl
  have e8 : List.foldl scanLine
      ⟨⟨joinNl L1, joinNl L2, joinNl L3, []⟩, some .plan, true⟩ L4 =
      ⟨⟨joinNl L1, joinNl L2, joinNl L3, joinNl L4⟩, some .plan, true⟩ := by
    rw [foldl_scan_content L4 _ .plan rfl rfl (fun h => absurd rfl h) hg4]
    simp only [Sections.get, Sections.set]
    rw [accJoin_nil_eq_joinNl L4 hne4 h4]
  have hraw : rawScan (joinNl (["===SUBJECTIVE===".data] ++ L1 ++
      ["===OBJECTIVE===".data] ++ L2 ++ ["===ASSESSMENT===".data] ++ L3 ++
      ["===PLAN===".data] ++ L4)) =
      ⟨joinNl L1, joinNl L2, joinNl L3, joinNl L4⟩ := by
    unfold rawScan
    rw [hlines, List.foldl_append, List.foldl_append, List.foldl_append,
      List.foldl_append, List.foldl_append, List.foldl_append, List.foldl_append,
      e1, e2, e3, e4, e5, e6, e7, e8]
  have hany : Sections.anyVal ⟨joinNl L1, joinNl L2, joinNl L3, joinNl L4⟩ = true := by
    simp [Sections.anyVal, hj1ne]
  unfold _parse_soap_response
  dsimp only
  rw [hraw, if_pos hany, if_pos hany, postProcess_eq]
  dsimp only
  rw [hj1fix, hj2fix, hj3fix, hj4fix]
  rw [if_neg (by rintro (h | h); exacts [hj1ne h, hph h]),
    if_neg hj2ne, if_neg hj3ne, if_neg hj4ne,
    pstrip_wrap _ hj1fix hj1ne, pstrip_wrap _ hj2fix hj2ne,
    pstrip_wrap _ hj3fix hj3ne, pstrip_wrapL _ hj4fix]

theorem marker_scan_verbatim_amended_witness :
    _parse_soap_response
      (joinNl (["===SUBJECTIVE===".data] ++ ["A".data, "B".data] ++
               ["===OBJECTIVE===".data] ++ ["O".data] ++
               ["===ASSESSMENT===".data] ++ ["C".data] ++
               ["===PLAN===".data] ++ ["P".data])) [] =
      ⟨pstrip ('\n' :: (joinNl ["A".data, "B".data] ++ ['\n'])),
       pstrip ('\n' :: (joinNl ["O".data] ++ ['\n'])),
       pstrip ('\n' :: (joinNl ["C".data] ++ ['\n'])),
       pstrip ('\n' :: joinNl ["P".data])⟩ :=
  marker_scan_verbatim_amended ["A".data, "B".data] ["O".data] ["C".data] ["P".data] []
    (by decide) (by decide) (by decide) (by decide) (by decide) (by decide)

/-- C5: when the input text contains no section marker at any line start
and none of the section keywords anywhere, and it splits into at least
four blank-line-separated paragraphs, the parser returns paragraphs 1-4
(whitespace-trimmed) as subjective, objective, assessment and plan, in
order. -/
theorem paragraph_fallback_assigns_in_order (text tr : Str)
    (hm : ∀ ℓ ∈ splitNl text,
      markerTable.find? (fun p => isPrefixCh p.2 (plower (pstrip ℓ))) = none)
    (hk : ∀ sec ∈ sectionOrder, ∀ kw ∈ keywordTable sec,
      isInfixCh kw (plower text) = false)
    (hp : 4 ≤ (paragraphsOf text).length) :
    _parse_soap_response text tr =
      ⟨(paragraphsOf text).getD 0 [], (paragraphsOf text).getD 1 [],
       (paragraphsOf text).getD 2 [], (paragraphsOf text).getD 3 []⟩ := by
  have hsec : ∀ sec : SecName, sec ∈ sectionOrder := by intro sec; cases sec <;> decide
  have hstep := parse_eq_paragraphAssign text tr (rawScan_no_marker text hm)
    (fun sec => kwSection_no_kw text (plower text) sec (hk sec (hsec sec)))
  obtain ⟨p0, p1, p2, p3, rest, hps⟩ : ∃ p0 p1 p2 p3 rest,
      paragraphsOf text = p0 :: p1 :: p2 :: p3 :: rest := by
    rcases hl : paragraphsOf text with _ | ⟨p0, _ | ⟨p1, _ | ⟨p2, _ | ⟨p3, rest⟩⟩⟩⟩
    · rw [hl] at hp; simp at hp
    · rw [hl] at hp; simp at hp
    · rw [hl] at hp; simp at hp
    · rw [hl] at hp; simp at hp
    · exact ⟨p0, p1, p2, p3, rest, rfl⟩
  have hpa : paragraphAssign text = ⟨p0, p1, p2, p3⟩ := by
    unfold paragraphAssign
    rw [hps]
  have hmem0 : p0 ∈ paragraphsOf text := by rw [hps]; exact List.mem_cons_self _ _
  have hmem1 : p1 ∈ paragraphsOf text := by rw [hps]; simp
  have hmem2 : p2 ∈ paragraphsOf text := by rw [hps]; simp
  have hmem3 : p3 ∈ paragraphsOf text := by rw [hps]; simp
  obtain ⟨hs0, hne0, hinf0⟩ := paragraphsOf_mem hmem0
  obtain ⟨hs1, hne1, -⟩ := paragraphsOf_mem hmem1
  obtain ⟨hs2x, hne2, -⟩ := paragraphsOf_mem hmem2
  obtain ⟨hs3, hne3, -⟩ := paragraphsOf_mem hmem3
  have hph : p0 ≠ placeholder .subjective := by
    intro heq
    have h1 : "subjective".data <:+: plower p0 := by
      rw [heq]
      exact (isInfixCh_iff _ _).mp (by decide)
    have hsubj : "subjective".data <:+: plower text :=
      h1.trans (List.IsInfix.map Char.toLower hinf0)
    have hc := (isInfixCh_iff "subjective".data (plower text)).mpr hsubj
    rw [hk .subjective (by decide) "subjective".data (by decide)] at hc
    exact Bool.false_ne_true hc
  rw [hstep, hpa, postProcess_eq]
  dsimp only
  rw [hs0, hs1, hs2x, hs3]
  rw [if_neg (by rintro (h | h); exacts [hne0 h, hph h]),
      if_neg hne1, if_neg hne2, if_neg hne3, hps]
  rfl

def c5Text : Str := "Alpha one.\n\nBravo two.\n\nCharlie three.\n\nDelta four.".data

theorem paragraph_fallback_witness :
    _parse_soap_response c5Text "tr".data =
      ⟨"Alpha one.".data, "Bravo two.".data, "Charlie three.".data, "Delta four.".data⟩ := by
  rw [paragraph_fallback_assigns_in_order c5Text "tr".data (by decide) (by decide) (by decide)]
  decide

/-- C7: deleting by an id not present leaves the stored list unchanged
(same entries, same order) and signals 404; deleting by a present id
removes exactly the entries carrying that id (the result is a sublist —
nothing added, order kept — containing no entry with the id and every
occurrence of every other entry). -/
theorem delete_diary_entry_spec (entries : List DEntry) (eid : Str) :
    ((∀ e ∈ entries, e.id ≠ eid) →
       delete_diary_entry entries eid = (entries, .notFound404)) ∧
    ((∃ e ∈ entries, e.id = eid) →
       (delete_diary_entry entries eid).2 = .deleted ∧
       (delete_diary_entry entries eid).1.Sublist entries ∧
       ∀ e : DEntry, (delete_diary_entry entries eid).1.count e =
         if e.id = eid then 0 else entries.count e) := by
  constructor
  · intro h
    unfold delete_diary_entry
    have hf : entries.filter (fun e => !(e.id == eid)) = entries :=
      List.filter_eq_self.mpr (fun a ha => by simpa using h a ha)
    rw [hf, if_pos rfl]
  · rintro ⟨w, hw, hwid⟩
    have hne : entries.filter (fun e => !(e.id == eid)) ≠ entries := by
      intro heq
      have := (List.filter_eq_self.mp heq) w hw
      simp [hwid] at this
    have hlen : (entries.filter (fun e => !(e.id == eid))).length ≠ entries.length := by
      intro hl
      exact hne ((List.filter_sublist entries).eq_of_length hl)
    unfold delete_diary_entry
    rw [if_neg hlen]
    refine ⟨rfl, List.filter_sublist entries, ?_⟩
    intro e
    by_cases he : e.id = eid
    · rw [if_pos he, List.count_eq_zero]
      intro hmem
      have hp := List.of_mem_filter hmem
      simp [he] at hp
    · rw [if_neg he]
      exact List.count_filter (by simp [he])

theorem delete_diary_entry_spec_witness :
    delete_diary_entry [⟨"a".data, "t".data, "mood".data, 0⟩] "b".data =
      ([⟨"a".data, "t".data, "mood".data, 0⟩], .notFound404) ∧
    (delete_diary_entry [⟨"a".data, "t".data, "mood".data, 0⟩] "a".data).2 = .deleted :=
  ⟨(delete_diary_entry_spec [⟨"a".data, "t".data, "mood".data, 0⟩] "b".data).1 (by decide),
   ((delete_diary_entry_spec [⟨"a".data, "t".data, "mood".data, 0⟩] "a".data).2
      ⟨⟨"a".data, "t".data, "mood".data, 0⟩, by decide, rfl⟩).1⟩

/-- A four-byte audio input: shorter than the 1000-byte minimum. -/
def c9ShortAudio : List Nat := [0, 1, 2, 3]

/-- A WAV header with an unsupported 4000 Hz sample rate, failing
`validate_audio_format`. -/
def c9BadWav : WavFmt := ⟨100, 4000, 1⟩

/-- C9 (code bug): too-short audio on `POST /api/diary/entry` and on
`POST /api/clinical/transcribe` is answered with HTTP 500, and even the
explicit invalid-audio-format `HTTPException(400)` of the diary handler
is swallowed by its inner `except Exception` and re-raised as a 500 —
both contrary to the declared client-error policy. -/
theorem audio_client_errors_become_500 :
    create_diary_entry none (some "x".data) "symptom".data (some c9ShortAudio) none
        true .otherFailure false none "id1".data 0
      = .httpError 500 ("Audio transcription failed: ".data ++ tooShortMsg) ∧
    create_diary_entry none (some "x".data) "symptom".data (some c9ShortAudio) (some c9BadWav)
        true .otherFailure false none "id1".data 0
      = .httpError 500
          "Audio transcription failed: 400: Invalid audio format: Unsupported sample rate: 4000".data ∧
    transcribe_clinical_note (some c9ShortAudio) none true .otherFailure false none none
      = .httpError 500 ("Error processing clinical note: ".data ++ tooShortMsg) :=
  ⟨rfl, rfl, rfl⟩

end HealthcareAI
